import Mathlib

/-!
Verification of the Cyber-RAG conversational client core (the `Chatbot`
component): identifier extraction, the query dispatcher `sendMessage`,
history projection, and response normalization, shallowly embedded as
executable Lean definitions translated from the source.
-/

set_option maxRecDepth 4000

namespace CyberRAG

/-- Conversation roles of the chat data model. -/
inductive Role
  | user
  | assistant
deriving DecidableEq

/-- One cited vulnerability record, as built by the dispatcher from a
direct-lookup success response (fields taken verbatim from the response). -/
structure Citation where
  cve_id : String
  severity : String
  score : String
  published : String
  status : String
deriving DecidableEq

/-- One conversation turn as stored by the Message Store. `sources` and
`isError` default to empty and false, matching JavaScript objects created
without those keys. The timestamp is display-only. -/
structure Message where
  role : Role
  content : String
  timestamp : Nat := 0
  sources : List Citation := []
  isError : Bool := false
deriving DecidableEq

/-- One entry of the backend-facing history payload: by construction it
carries exactly a role and a content, and no timestamp, sources or
isError field. -/
structure HistoryEntry where
  role : Role
  content : String
deriving DecidableEq

/-- The History Projector: `messages.map(msg => (role: msg.role, content:
msg.content))` from the source, dropping every other field. -/
def projectHistory (msgs : List Message) : List HistoryEntry :=
  msgs.map (fun m => { role := m.role, content := m.content })

/-- A successful direct-lookup response body. -/
structure CveRecord where
  cve_id : String
  severity : String
  score : String
  status : String
  published : String
  lastModified : String
  description : String
deriving DecidableEq

/-- Outcome of the direct-lookup fetch: a parsed body with a truthy
success flag, a parsed body with a falsy success flag, or a rejected
fetch / unparsable body surfacing as a thrown error with a message. -/
inductive LookupResult
  | ok (r : CveRecord)
  | notFound
  | transportError (msg : String)
deriving DecidableEq

/-- Outcome of the semantic-search fetch: success with answer and sources,
a domain failure whose optional error string models `data.error`
(absent or empty both being falsy in JavaScript), or a transport error. -/
inductive QueryResult
  | ok (answer : String) (sources : List Citation)
  | fail (err : Option String)
  | transportError (msg : String)
deriving DecidableEq

/-- The backend as an oracle: what each of the two operations would
resolve to for a given request. -/
structure Backend where
  lookup : String → LookupResult
  query : String → List HistoryEntry → QueryResult

/-- The one backend request a non-no-op `sendMessage` issues: a direct
lookup keyed only by the canonical identifier, or a semantic-search call
carrying the query text and the projected history. -/
inductive Request
  | lookup (cveId : String)
  | query (q : String) (history : List HistoryEntry)
deriving DecidableEq

/-- Dispatcher-owned state: the Message Store, the input buffer, and the
loading flag (true exactly while a submission is in flight). -/
structure ChatState where
  messages : List Message
  input : String
  loading : Bool

/-- JavaScript `String.prototype.trim`: drop whitespace from both ends. -/
def jsTrim (s : String) : String :=
  String.mk (((s.data.dropWhile Char.isWhitespace).reverse.dropWhile
    Char.isWhitespace).reverse)

/-- JavaScript `a || b` for an optional error string: absent and empty
strings are falsy and select the fallback. -/
def jsOrElse (e : Option String) (d : String) : String :=
  match e with
  | some s => if s = "" then d else s
  | none => d

/-- The seeded greeting text of the initial assistant message. -/
def greetingText : String :=
  "Hello! I'm CyberRAG, your cybersecurity assistant. Ask me about CVE vulnerabilities, security threats, or specific CVE IDs."

/-- The seeded greeting message: role assistant, no sources, not an error. -/
def greetingMessage : Message :=
  { role := Role.assistant, content := greetingText }

/-- The initial dispatcher state: store seeded with exactly the greeting. -/
def initialState : ChatState :=
  { messages := [greetingMessage], input := "", loading := false }

/-- Attempt of the regex `CVE-[0-9]{4}-[0-9]{4,}` (case-insensitive flag)
anchored at the head of the character list: the literal letters C, V, E
in either case, a hyphen, exactly four digits, a hyphen, then a greedy
maximal run of at least four digits. Returns the matched characters. -/
def matchCveAt : List Char → Option (List Char)
  | c :: v :: e :: h1 :: y1 :: y2 :: y3 :: y4 :: h2 :: rest =>
    if c.toLower == 'c' && v.toLower == 'v' && e.toLower == 'e' &&
       h1 == '-' && y1.isDigit && y2.isDigit && y3.isDigit && y4.isDigit &&
       h2 == '-' then
      if 4 ≤ (rest.takeWhile Char.isDigit).length then
        some (c :: v :: e :: h1 :: y1 :: y2 :: y3 :: y4 :: h2 ::
          rest.takeWhile Char.isDigit)
      else none
    else none
  | _ => none

/-- Leftmost-match search of `String.prototype.match` without the global
flag: try each start position from the left, return the first success. -/
def findCve : List Char → Option (List Char)
  | [] => none
  | c :: cs =>
    match matchCveAt (c :: cs) with
    | some m => some m
    | none => findCve cs

/-- The Identifier Extractor: `content.match(regex)` followed by
`.toUpperCase()` on the matched substring, from the source. -/
def extractCveId (s : String) : Option String :=
  (findCve s.data).map (fun m => String.mk (m.map Char.toUpper))

/-- Specification-side pattern predicate, written from the spec words:
the letters CVE in any case, a hyphen, a 4-digit year, a hyphen, and
four or more digits (the canonical hyphen-delimited CVE-YYYY-NNNN form). -/
def cveShape : List Char → Bool
  | c :: v :: e :: h1 :: y1 :: y2 :: y3 :: y4 :: h2 :: ds =>
    c.toLower == 'c' && v.toLower == 'v' && e.toLower == 'e' &&
    h1 == '-' && y1.isDigit && y2.isDigit && y3.isDigit && y4.isDigit &&
    h2 == '-' && decide (4 ≤ ds.length) && ds.all Char.isDigit
  | _ => false

/-- The direct-lookup hit template from the source, a template literal
interpolating id, severity, score, status, published, lastModified and
description in that order, then trimmed. -/
def formatCveDetails (r : CveRecord) : String :=
  jsTrim ("\n**" ++ r.cve_id ++ "**\n\n**Severity:** " ++ r.severity ++
    " (Score: " ++ r.score ++ ")\n**Status:** " ++ r.status ++
    "\n**Published:** " ++ r.published ++ "\n**Last Modified:** " ++
    r.lastModified ++ "\n\n**Description:**\n" ++ r.description ++
    "\n          ")

/-- The Citation the source builds from a lookup-hit response. -/
def citationOf (r : CveRecord) : Citation :=
  { cve_id := r.cve_id, severity := r.severity, score := r.score,
    published := r.published, status := r.status }

/-- The fixed not-found message text of the source, naming the id. -/
def notFoundContent (cveId : String) : String :=
  "I couldn't find " ++ cveId ++ " in the database. This CVE might not exist, or it hasn't been added to our database yet. Try asking a general question about vulnerabilities instead."

/-- The fixed catch-block message text of the source, embedding the
failure message and the hint to check the API server. -/
def errorContent (msg : String) : String :=
  "Sorry, I encountered an error: " ++ msg ++ ". Please make sure the API server is running."

/-- The dispatcher `sendMessage`, translated statement by statement from
the source. The guard checks the trimmed input and the loading flag. The
user message holds the trimmed input. The history payload for the
semantic-search branch is projected from the `messages` binding captured
before the user message is appended (the React state variable is not
updated by the functional `setMessages` call within the same handler
run), while the assistant append uses the functional updater and so lands
after the user message. The loading flag is cleared in `finally`.
Returns the final state and the request issued, if any. -/
def sendMessage (st : ChatState) (bk : Backend) (now : Nat) :
    ChatState × Option Request :=
  if jsTrim st.input = "" ∨ st.loading = true then (st, none)
  else
    let content := jsTrim st.input
    let userMsg : Message := { role := Role.user, content := content, timestamp := now }
    let msgs1 := st.messages ++ [userMsg]
    match extractCveId content with
    | some cveId =>
      match bk.lookup cveId with
      | LookupResult.ok r =>
        let am : Message :=
          { role := Role.assistant, content := formatCveDetails r,
            timestamp := now, sources := [citationOf r] }
        ({ messages := msgs1 ++ [am], input := "", loading := false },
         some (Request.lookup cveId))
      | LookupResult.notFound =>
        let am : Message :=
          { role := Role.assistant, content := notFoundContent cveId,
            timestamp := now, isError := true }
        ({ messages := msgs1 ++ [am], input := "", loading := false },
         some (Request.lookup cveId))
      | LookupResult.transportError m =>
        let am : Message :=
          { role := Role.assistant, content := errorContent m,
            timestamp := now, isError := true }
        ({ messages := msgs1 ++ [am], input := "", loading := false },
         some (Request.lookup cveId))
    | none =>
      let history := projectHistory st.messages
      match bk.query content history with
      | QueryResult.ok answer sources =>
        let am : Message :=
          { role := Role.assistant, content := answer,
            timestamp := now, sources := sources }
        ({ messages := msgs1 ++ [am], input := "", loading := false },
         some (Request.query content history))
      | QueryResult.fail err =>
        let am : Message :=
          { role := Role.assistant,
            content := errorContent (jsOrElse err "Failed to get response"),
            timestamp := now, isError := true }
        ({ messages := msgs1 ++ [am], input := "", loading := false },
         some (Request.query content history))
      | QueryResult.transportError m =>
        let am : Message :=
          { role := Role.assistant, content := errorContent m,
            timestamp := now, isError := true }
        ({ messages := msgs1 ++ [am], input := "", loading := false },
         some (Request.query content history))

/-- A concrete backend used by closed witnesses and counterexamples. -/
def bk0 : Backend :=
  { lookup := fun _ => LookupResult.notFound,
    query := fun _ _ => QueryResult.ok "An answer." [] }

/-! Lemmas about the regex-match embedding. -/

/-- takeWhile over an all-satisfying prefix keeps that prefix whole. -/
theorem takeWhile_append_of_all {α : Type} {p : α → Bool} {l₁ l₂ : List α}
    (h : l₁.all p = true) : (l₁ ++ l₂).takeWhile p = l₁ ++ l₂.takeWhile p := by
  induction l₁ with
  | nil => simp
  | cons a t ih =>
    simp only [List.all_cons, Bool.and_eq_true] at h
    simp [List.takeWhile_cons, h.1, ih h.2]

/-- An anchored match is pattern-shaped and is a prefix of its input. -/
theorem matchCveAt_sound {l m : List Char} (h : matchCveAt l = some m) :
    cveShape m = true ∧ m <+: l := by
  unfold matchCveAt at h
  split at h
  next c v e h1 y1 y2 y3 y4 h2 rest =>
    split at h
    next hcond =>
      split at h
      next hlen =>
        injection h with hm
        subst hm
        refine ⟨?_, ?_⟩
        · simp only [cveShape]
          rw [hcond]
          simp [hlen, List.all_takeWhile]
        · obtain ⟨t, ht⟩ := List.takeWhile_prefix (l := rest) Char.isDigit
          exact ⟨t, by simp [ht]⟩
      next => exact absurd h (by simp)
    next => exact absurd h (by simp)
  next => exact absurd h (by simp)

/-- Every pattern-shaped prefix of the input extends to the anchored
(greedy) match: the anchored matcher succeeds and returns a superset. -/
theorem matchCveAt_complete {m l : List Char} (hs : cveShape m = true)
    (hp : m <+: l) : ∃ m0, matchCveAt l = some m0 ∧ m <+: m0 := by
  match m, hs with
  | c :: v :: e :: h1 :: y1 :: y2 :: y3 :: y4 :: h2 :: ds, hs =>
    obtain ⟨t, ht⟩ := hp
    subst ht
    unfold cveShape at hs
    simp only [Bool.and_eq_true] at hs
    obtain ⟨⟨⟨⟨⟨⟨⟨⟨⟨⟨hc, hv⟩, he⟩, hh1⟩, hy1⟩, hy2⟩, hy3⟩, hy4⟩, hh2⟩, hlen⟩, hall⟩ := hs
    rw [decide_eq_true_iff] at hlen
    have htw : ((ds ++ t).takeWhile Char.isDigit) = ds ++ t.takeWhile Char.isDigit :=
      takeWhile_append_of_all hall
    refine ⟨c :: v :: e :: h1 :: y1 :: y2 :: y3 :: y4 :: h2 ::
      ((ds ++ t).takeWhile Char.isDigit), ?_, ?_⟩
    · show matchCveAt
        (c :: v :: e :: h1 :: y1 :: y2 :: y3 :: y4 :: h2 :: (ds ++ t)) = _
      have hlen2 : 4 ≤ ((ds ++ t).takeWhile Char.isDigit).length := by
        rw [htw]
        simp only [List.length_append]
        omega
      simp only [matchCveAt]
      rw [if_pos (by simp [hc, hv, he, hh1, hy1, hy2, hy3, hy4, hh2]),
        if_pos hlen2]
    · exact ⟨t.takeWhile Char.isDigit, by simp [htw]⟩

/-- If the anchored matcher fails, no pattern-shaped list starts here. -/
theorem matchCveAt_none {l : List Char} (h : matchCveAt l = none) :
    ∀ m, cveShape m = true → ¬ (m <+: l) := by
  intro m hs hp
  obtain ⟨m0, hm0, _⟩ := matchCveAt_complete hs hp
  rw [h] at hm0
  exact absurd hm0 (by simp)

/-- The scanning search finds a match exactly at the first position where
the anchored matcher succeeds. -/
theorem findCve_some {l m : List Char} (h : findCve l = some m) :
    ∃ k, matchCveAt (l.drop k) = some m ∧
      ∀ j, j < k → matchCveAt (l.drop j) = none := by
  induction l with
  | nil => simp [findCve] at h
  | cons a t ih =>
    rw [findCve] at h
    cases hm : matchCveAt (a :: t) with
    | some m0 =>
      rw [hm] at h
      injection h with h
      subst h
      exact ⟨0, hm, fun j hj => absurd hj (by omega)⟩
    | none =>
      rw [hm] at h
      obtain ⟨k, hk1, hk2⟩ := ih h
      refine ⟨k + 1, by simpa using hk1, ?_⟩
      intro j hj
      cases j with
      | zero => simpa using hm
      | succ j => simpa using hk2 j (by omega)

/-- If the scan fails, the anchored matcher fails at every position. -/
theorem findCve_none {l : List Char} (h : findCve l = none) :
    ∀ k, matchCveAt (l.drop k) = none := by
  induction l with
  | nil => intro k; simp [matchCveAt]
  | cons a t ih =>
    rw [findCve] at h
    cases hm : matchCveAt (a :: t) with
    | some m0 => rw [hm] at h; exact absurd h (by simp)
    | none =>
      rw [hm] at h
      intro k
      cases k with
      | zero => simpa using hm
      | succ k => simpa using ih h k

/-! Lemmas computing a full non-guarded run of the dispatcher, one per
backend outcome. -/

/-- The submit guard is passed when input trims non-empty and idle. -/
theorem submit_guard_neg {st : ChatState} (hl : st.loading = false)
    (hne : jsTrim st.input ≠ "") :
    ¬ (jsTrim st.input = "" ∨ st.loading = true) := by
  rintro (h | h)
  · exact hne h
  · rw [hl] at h
    exact Bool.false_ne_true h

/-- The request a non-guarded submit issues, as a function of the
extraction outcome alone. -/
theorem submit_request_eq (st : ChatState) (bk : Backend) (now : Nat)
    (hl : st.loading = false) (hne : jsTrim st.input ≠ "") :
    (sendMessage st bk now).2 =
      match extractCveId (jsTrim st.input) with
      | some cveId => some (Request.lookup cveId)
      | none => some (Request.query (jsTrim st.input)
          (projectHistory st.messages)) := by
  unfold sendMessage
  rw [if_neg (submit_guard_neg hl hne)]
  cases hx : extractCveId (jsTrim st.input) with
  | some cveId => cases hr : bk.lookup cveId <;> simp [hx, hr]
  | none =>
    cases hq : bk.query (jsTrim st.input) (projectHistory st.messages) <;>
      simp [hx, hq]

/-- Full run on a direct-lookup hit. -/
theorem submit_lookup_ok (st : ChatState) (bk : Backend) (now : Nat)
    {cveId : String} {r : CveRecord}
    (hl : st.loading = false) (hne : jsTrim st.input ≠ "")
    (hx : extractCveId (jsTrim st.input) = some cveId)
    (hr : bk.lookup cveId = LookupResult.ok r) :
    sendMessage st bk now =
      ({ messages := st.messages ++
          [{ role := Role.user, content := jsTrim st.input, timestamp := now },
           { role := Role.assistant, content := formatCveDetails r,
             timestamp := now, sources := [citationOf r] }],
         input := "", loading := false },
       some (Request.lookup cveId)) := by
  unfold sendMessage
  rw [if_neg (submit_guard_neg hl hne)]
  simp [hx, hr]

/-- Full run on a direct-lookup miss. -/
theorem submit_lookup_miss (st : ChatState) (bk : Backend) (now : Nat)
    {cveId : String}
    (hl : st.loading = false) (hne : jsTrim st.input ≠ "")
    (hx : extractCveId (jsTrim st.input) = some cveId)
    (hr : bk.lookup cveId = LookupResult.notFound) :
    sendMessage st bk now =
      ({ messages := st.messages ++
          [{ role := Role.user, content := jsTrim st.input, timestamp := now },
           { role := Role.assistant, content := notFoundContent cveId,
             timestamp := now, isError := true }],
         input := "", loading := false },
       some (Request.lookup cveId)) := by
  unfold sendMessage
  rw [if_neg (submit_guard_neg hl hne)]
  simp [hx, hr]

/-- Full run on a direct-lookup transport failure. -/
theorem submit_lookup_transport (st : ChatState) (bk : Backend) (now : Nat)
    {cveId m : String}
    (hl : st.loading = false) (hne : jsTrim st.input ≠ "")
    (hx : extractCveId (jsTrim st.input) = some cveId)
    (hr : bk.lookup cveId = LookupResult.transportError m) :
    sendMessage st bk now =
      ({ messages := st.messages ++
          [{ role := Role.user, content := jsTrim st.input, timestamp := now },
           { role := Role.assistant, content := errorContent m,
             timestamp := now, isError := true }],
         input := "", loading := false },
       some (Request.lookup cveId)) := by
  unfold sendMessage
  rw [if_neg (submit_guard_neg hl hne)]
  simp [hx, hr]

/-- Full run on a semantic-search success. -/
theorem submit_query_ok (st : ChatState) (bk : Backend) (now : Nat)
    {answer : String} {sources : List Citation}
    (hl : st.loading = false) (hne : jsTrim st.input ≠ "")
    (hx : extractCveId (jsTrim st.input) = none)
    (hq : bk.query (jsTrim st.input) (projectHistory st.messages) =
      QueryResult.ok answer sources) :
    sendMessage st bk now =
      ({ messages := st.messages ++
          [{ role := Role.user, content := jsTrim st.input, timestamp := now },
           { role := Role.assistant, content := answer,
             timestamp := now, sources := sources }],
         input := "", loading := false },
       some (Request.query (jsTrim st.input) (projectHistory st.messages))) := by
  unfold sendMessage
  rw [if_neg (submit_guard_neg hl hne)]
  simp [hx, hq]

/-- Full run on a semantic-search domain failure. -/
theorem submit_query_fail (st : ChatState) (bk : Backend) (now : Nat)
    {err : Option String}
    (hl : st.loading = false) (hne : jsTrim st.input ≠ "")
    (hx : extractCveId (jsTrim st.input) = none)
    (hq : bk.query (jsTrim st.input) (projectHistory st.messages) =
      QueryResult.fail err) :
    sendMessage st bk now =
      ({ messages := st.messages ++
          [{ role := Role.user, content := jsTrim st.input, timestamp := now },
           { role := Role.assistant,
             content := errorContent (jsOrElse err "Failed to get response"),
             timestamp := now, isError := true }],
         input := "", loading := false },
       some (Request.query (jsTrim st.input) (projectHistory st.messages))) := by
  unfold sendMessage
  rw [if_neg (submit_guard_neg hl hne)]
  simp [hx, hq]

/-- Full run on a semantic-search transport failure. -/
theorem submit_query_transport (st : ChatState) (bk : Backend) (now : Nat)
    {m : String}
    (hl : st.loading = false) (hne : jsTrim st.input ≠ "")
    (hx : extractCveId (jsTrim st.input) = none)
    (hq : bk.query (jsTrim st.input) (projectHistory st.messages) =
      QueryResult.transportError m) :
    sendMessage st bk now =
      ({ messages := st.messages ++
          [{ role := Role.user, content := jsTrim st.input, timestamp := now },
           { role := Role.assistant, content := errorContent m,
             timestamp := now, isError := true }],
         input := "", loading := false },
       some (Request.query (jsTrim st.input) (projectHistory st.messages))) := by
  unfold sendMessage
  rw [if_neg (submit_guard_neg hl hne)]
  simp [hx, hq]

/-- Every non-guarded submit runs to a final state with the loading flag
cleared and the store extended by the user turn and one assistant turn. -/
theorem submit_shape (st : ChatState) (bk : Backend) (now : Nat)
    (hl : st.loading = false) (hne : jsTrim st.input ≠ "") :
    (sendMessage st bk now).1.loading = false ∧
    ∃ a : Message, a.role = Role.assistant ∧
      (sendMessage st bk now).1.messages =
        st.messages ++
          [{ role := Role.user, content := jsTrim st.input, timestamp := now },
           a] := by
  cases hx : extractCveId (jsTrim st.input) with
  | some cveId =>
    cases hr : bk.lookup cveId with
    | ok r => rw [submit_lookup_ok st bk now hl hne hx hr]; exact ⟨rfl, _, rfl, rfl⟩
    | notFound => rw [submit_lookup_miss st bk now hl hne hx hr]; exact ⟨rfl, _, rfl, rfl⟩
    | transportError m => rw [submit_lookup_transport st bk now hl hne hx hr]; exact ⟨rfl, _, rfl, rfl⟩
  | none =>
    cases hq : bk.query (jsTrim st.input) (projectHistory st.messages) with
    | ok answer sources => rw [submit_query_ok st bk now hl hne hx hq]; exact ⟨rfl, _, rfl, rfl⟩
    | fail err => rw [submit_query_fail st bk now hl hne hx hq]; exact ⟨rfl, _, rfl, rfl⟩
    | transportError m => rw [submit_query_transport st bk now hl hne hx hq]; exact ⟨rfl, _, rfl, rfl⟩

/-! Concrete fixtures used by closed witnesses and counterexamples. -/

/-- A free-text state: seeded store, input with no CVE identifier. -/
def st_hello : ChatState :=
  { messages := [greetingMessage], input := "hello", loading := false }

/-- An identifier-bearing state over the seeded store. -/
def st_cve : ChatState :=
  { messages := [greetingMessage], input := "cve-2023-1234", loading := false }

/-- A sample lookup-hit record. -/
def rec0 : CveRecord :=
  { cve_id := "CVE-2023-1234", severity := "HIGH", score := "7.5",
    status := "Analyzed", published := "2023-01-15",
    lastModified := "2023-02-01",
    description := "A sample vulnerability description." }

/-- A backend whose lookups hit. -/
def bkHit : Backend :=
  { lookup := fun _ => LookupResult.ok rec0,
    query := fun _ _ => QueryResult.ok "An answer." [] }

/-- A backend that is unreachable: both operations fail in transport. -/
def bkDown : Backend :=
  { lookup := fun _ => LookupResult.transportError "Failed to fetch",
    query := fun _ _ => QueryResult.transportError "Failed to fetch" }

/-- A stored assistant error message, for history-projection witnesses. -/
def errStored : Message :=
  { role := Role.assistant,
    content := "I couldn't find CVE-2020-9999 in the database.",
    isError := true }

/-- A state whose store already holds an error message, identifier-free
input. -/
def st_witherr : ChatState :=
  { messages := [greetingMessage, errStored], input := "what else",
    loading := false }

/-- The identifier-bearing input of st_cve over a different store. -/
def st_cveB : ChatState :=
  { messages := [greetingMessage, errStored], input := "cve-2023-1234",
    loading := false }

/-- A lowercase identifier inside longer text, over the seeded store. -/
def st_cveLower : ChatState :=
  { messages := [greetingMessage],
    input := "tell me about cve-2023-1234 now", loading := false }

/-- Whitespace-only input over the seeded store. -/
def st_blank : ChatState :=
  { messages := [greetingMessage], input := "  ", loading := false }

/-- Non-empty input issued while a submission is in flight. -/
def st_busy : ChatState :=
  { messages := [greetingMessage], input := "hi", loading := true }

/-! The claims. -/

/-- C1: For every raw input text containing a substring matching, case
insensitively, the CVE pattern (the letters CVE, a hyphen, a 4-digit
year, a hyphen, 4-or-more digits), the Identifier Extractor returns the
first, leftmost, greedy such match normalized to uppercase, and the
dispatcher routes the submission to direct lookup keyed by it; for every
input with no such substring the extractor returns nothing and the
dispatcher routes to semantic search. -/
theorem C1_identifier_extraction_and_routing :
    (∀ s : String,
      (∀ m, extractCveId s = some m →
        ∃ k orig, cveShape orig = true ∧ orig <+: s.data.drop k ∧
          m = String.mk (orig.map Char.toUpper) ∧
          (∀ j, j < k → ∀ m2, cveShape m2 = true → ¬ (m2 <+: s.data.drop j)) ∧
          (∀ m2, cveShape m2 = true → m2 <+: s.data.drop k → m2 <+: orig)) ∧
      (extractCveId s = none →
        ∀ k m2, cveShape m2 = true → ¬ (m2 <+: s.data.drop k))) ∧
    (∀ (st : ChatState) (bk : Backend) (now : Nat),
      st.loading = false → jsTrim st.input ≠ "" →
      (∀ cveId, extractCveId (jsTrim st.input) = some cveId →
        (sendMessage st bk now).2 = some (Request.lookup cveId)) ∧
      (extractCveId (jsTrim st.input) = none →
        (sendMessage st bk now).2 = some (Request.query (jsTrim st.input)
          (projectHistory st.messages)))) := by
  constructor
  · intro s
    constructor
    · intro m hm
      unfold extractCveId at hm
      cases hf : findCve s.data with
      | none => rw [hf] at hm; exact absurd hm (by simp)
      | some m0 =>
        rw [hf] at hm
        simp only [Option.map_some', Option.some.injEq] at hm
        obtain ⟨k, hk, hbefore⟩ := findCve_some hf
        obtain ⟨hshape, hpref⟩ := matchCveAt_sound hk
        refine ⟨k, m0, hshape, hpref, hm.symm, ?_, ?_⟩
        · intro j hj m2 hs2 hp2
          exact matchCveAt_none (hbefore j hj) m2 hs2 hp2
        · intro m2 hs2 hp2
          obtain ⟨mm, hmm, hsub⟩ := matchCveAt_complete hs2 hp2
          rw [hk] at hmm
          injection hmm with hmm
          rw [hmm]
          exact hsub
    · intro hnone k m2 hs2 hp2
      unfold extractCveId at hnone
      cases hf : findCve s.data with
      | some m0 => rw [hf] at hnone; exact absurd hnone (by simp)
      | none => exact matchCveAt_none (findCve_none hf k) m2 hs2 hp2
  · intro st bk now hl hne
    have hreq := submit_request_eq st bk now hl hne
    constructor
    · intro cveId hx
      rw [hx] at hreq
      exact hreq
    · intro hx
      rw [hx] at hreq
      exact hreq

/-- Witness for C1: a lowercase identifier is extracted uppercased and
routed to lookup; identifier-free text routes to semantic search. -/
theorem C1_witness :
    extractCveId "tell me about cve-2023-1234 now" = some "CVE-2023-1234" ∧
    (sendMessage st_cveLower bk0 0).2 = some (Request.lookup "CVE-2023-1234") ∧
    extractCveId "hello" = none ∧
    (sendMessage st_hello bk0 0).2 =
      some (Request.query (jsTrim st_hello.input)
        (projectHistory st_hello.messages)) := by
  refine ⟨by decide, ?_, by decide, ?_⟩
  · exact (C1_identifier_extraction_and_routing.2 st_cveLower bk0 0 rfl
      (by decide)).1 "CVE-2023-1234" (by decide)
  · exact (C1_identifier_extraction_and_routing.2 st_hello bk0 0 rfl
      (by decide)).2 (by decide)

/-- C2: A submit whose input trims empty, or issued while the loading
flag is set (a prior submission still in flight), is a no-op: the state
is unchanged and no backend request is issued. -/
theorem C2_guard_noop (st : ChatState) (bk : Backend) (now : Nat)
    (h : jsTrim st.input = "" ∨ st.loading = true) :
    sendMessage st bk now = (st, none) := by
  unfold sendMessage
  rw [if_pos h]

/-- Witness for C2: whitespace-only input and an in-flight submission
are both no-ops on concrete states. -/
theorem C2_witness :
    jsTrim "  " = "" ∧
    sendMessage st_blank bk0 0 = (st_blank, none) ∧
    sendMessage st_busy bk0 0 = (st_busy, none) :=
  ⟨by decide,
   C2_guard_noop st_blank bk0 0 (Or.inl (by decide)),
   C2_guard_noop st_busy bk0 0 (Or.inr rfl)⟩

/-- C3 counterexample: on the seeded store with free-text input "hello",
the semantic-search request carries a history holding only the greeting
entry; the entry for the just-appended user message is absent from that
history even though the user message is in the store afterwards. This
refutes the claim that the history includes the new user message. -/
theorem C3_counterexample :
    (sendMessage st_hello bk0 0).2 =
      some (Request.query "hello"
        [{ role := Role.assistant, content := greetingText }]) ∧
    HistoryEntry.mk Role.user "hello" ∉
      [HistoryEntry.mk Role.assistant greetingText] ∧
    { role := Role.user, content := "hello", timestamp := 0 } ∈
      (sendMessage st_hello bk0 0).1.messages :=
  ⟨by decide, by decide, by decide⟩

/-- C3 (amended): for every free-text submission, the history payload
sent with the semantic-search request is the projection of the Message
Store as it was before the new user message was appended: the seeded
greeting and all prior turns in store order, without the new user
message, which travels separately as the query field. -/
theorem C3_history_payload (st : ChatState) (bk : Backend) (now : Nat)
    (hl : st.loading = false) (hne : jsTrim st.input ≠ "")
    (hx : extractCveId (jsTrim st.input) = none) :
    (sendMessage st bk now).2 =
      some (Request.query (jsTrim st.input) (projectHistory st.messages)) := by
  have h := submit_request_eq st bk now hl hne
  rw [hx] at h
  exact h

/-- Witness for C3 (amended) on the seeded store. -/
theorem C3_witness :
    (sendMessage st_hello bk0 0).2 =
      some (Request.query (jsTrim st_hello.input)
        (projectHistory st_hello.messages)) :=
  C3_history_payload st_hello bk0 0 rfl (by decide) (by decide)

/-- C4: for every Message Store state, the backend-facing history
payload has exactly one entry per stored message, in store order, with
no truncation, each entry being the role-content pair of its message;
by the type of HistoryEntry an entry carries exactly a role and a
content and no timestamp, sources or isError field. -/
theorem C4_history_projection (msgs : List Message) (i : Nat) :
    (projectHistory msgs).length = msgs.length ∧
    (projectHistory msgs)[i]? =
      (msgs[i]?).map (fun m => HistoryEntry.mk m.role m.content) := by
  constructor
  · simp [projectHistory]
  · simp [projectHistory, List.getElem?_map]

/-- C5: on a direct-lookup success, the dispatcher appends the user turn
and an assistant message whose content is the deterministic trimmed
template over id, severity, score, status, published, lastModified and
description, whose sources is the singleton Citation built from the same
response fields, and whose isError is false. -/
theorem C5_lookup_hit_message (st : ChatState) (bk : Backend) (now : Nat)
    (cveId : String) (r : CveRecord)
    (hl : st.loading = false) (hne : jsTrim st.input ≠ "")
    (hx : extractCveId (jsTrim st.input) = some cveId)
    (hr : bk.lookup cveId = LookupResult.ok r) :
    (sendMessage st bk now).1.messages =
      st.messages ++
        [{ role := Role.user, content := jsTrim st.input, timestamp := now },
         { role := Role.assistant, content := formatCveDetails r,
           timestamp := now, sources := [citationOf r], isError := false }] := by
  rw [submit_lookup_ok st bk now hl hne hx hr]

/-- Witness for C5 at a concrete hit. -/
theorem C5_witness :
    (sendMessage st_cve bkHit 0).1.messages =
      [greetingMessage,
       { role := Role.user, content := "cve-2023-1234", timestamp := 0 },
       { role := Role.assistant, content := formatCveDetails rec0,
         timestamp := 0, sources := [citationOf rec0], isError := false }] := by
  have h := C5_lookup_hit_message st_cve bkHit 0 "CVE-2023-1234" rec0 rfl
    (by decide) (by decide) rfl
  rw [show jsTrim st_cve.input = "cve-2023-1234" from by decide] at h
  simpa using h

/-- C6: on a direct-lookup miss, the dispatcher appends an assistant
message with isError true and empty sources whose content is the fixed
not-found template naming the looked-up canonical identifier; that
content contains the identifier and the words couldn't find. -/
theorem C6_lookup_miss_message (st : ChatState) (bk : Backend) (now : Nat)
    (cveId : String)
    (hl : st.loading = false) (hne : jsTrim st.input ≠ "")
    (hx : extractCveId (jsTrim st.input) = some cveId)
    (hr : bk.lookup cveId = LookupResult.notFound) :
    (sendMessage st bk now).1.messages =
      st.messages ++
        [{ role := Role.user, content := jsTrim st.input, timestamp := now },
         { role := Role.assistant, content := notFoundContent cveId,
           timestamp := now, sources := [], isError := true }] ∧
    cveId.data <:+: (notFoundContent cveId).data ∧
    ("couldn't find" : String).data <:+: (notFoundContent cveId).data := by
  refine ⟨?_, ?_, ?_⟩
  · rw [submit_lookup_miss st bk now hl hne hx hr]
  · exact ⟨("I couldn't find " : String).data,
      (" in the database. This CVE might not exist, or it hasn't been added to our database yet. Try asking a general question about vulnerabilities instead." : String).data,
      by simp [notFoundContent]⟩
  · refine ⟨("I " : String).data,
      (" " ++ cveId ++ " in the database. This CVE might not exist, or it hasn't been added to our database yet. Try asking a general question about vulnerabilities instead." : String).data,
      ?_⟩
    have hsplit : ("I couldn't find " : String).data =
        ("I " : String).data ++ ("couldn't find" : String).data ++
          (" " : String).data := by decide
    simp [notFoundContent, hsplit]

/-- Witness for C6 at a concrete miss. -/
theorem C6_witness :
    (sendMessage st_cve bk0 0).1.messages =
      [greetingMessage,
       { role := Role.user, content := "cve-2023-1234", timestamp := 0 },
       { role := Role.assistant, content := notFoundContent "CVE-2023-1234",
         timestamp := 0, sources := [], isError := true }] ∧
    ("CVE-2023-1234" : String).data <:+:
      (notFoundContent "CVE-2023-1234").data ∧
    ("couldn't find" : String).data <:+:
      (notFoundContent "CVE-2023-1234").data := by
  obtain ⟨h1, h2, h3⟩ := C6_lookup_miss_message st_cve bk0 0 "CVE-2023-1234"
    rfl (by decide) (by decide) rfl
  rw [show jsTrim st_cve.input = "cve-2023-1234" from by decide] at h1
  exact ⟨by simpa using h1, h2, h3⟩

/-- A non-guarded submit always issues a request. -/
theorem submit_issues (st : ChatState) (bk : Backend) (now : Nat)
    (hl : st.loading = false) (hne : jsTrim st.input ≠ "") :
    ((sendMessage st bk now).2).isSome := by
  rw [submit_request_eq st bk now hl hne]
  cases extractCveId (jsTrim st.input) <;> simp

/-- C7: on every failing outcome (transport failure on either branch, or
a semantic-search domain failure) the dispatcher appends exactly one
assistant message with isError true, empty sources, and content
embedding the failure message (the backend error string or the generic
fallback) in the fixed template with the reachability hint; and after
every outcome the loading flag is cleared, so a later submit with
non-blank input is accepted and issues a request. -/
theorem C7_failure_handling (st : ChatState) (bk : Backend) (now : Nat)
    (hl : st.loading = false) (hne : jsTrim st.input ≠ "") :
    (sendMessage st bk now).1.loading = false ∧
    (∀ cveId m, extractCveId (jsTrim st.input) = some cveId →
      bk.lookup cveId = LookupResult.transportError m →
      (sendMessage st bk now).1.messages =
        st.messages ++
          [{ role := Role.user, content := jsTrim st.input, timestamp := now },
           { role := Role.assistant, content := errorContent m,
             timestamp := now, sources := [], isError := true }]) ∧
    (∀ m, extractCveId (jsTrim st.input) = none →
      bk.query (jsTrim st.input) (projectHistory st.messages) =
        QueryResult.transportError m →
      (sendMessage st bk now).1.messages =
        st.messages ++
          [{ role := Role.user, content := jsTrim st.input, timestamp := now },
           { role := Role.assistant, content := errorContent m,
             timestamp := now, sources := [], isError := true }]) ∧
    (∀ err, extractCveId (jsTrim st.input) = none →
      bk.query (jsTrim st.input) (projectHistory st.messages) =
        QueryResult.fail err →
      (sendMessage st bk now).1.messages =
        st.messages ++
          [{ role := Role.user, content := jsTrim st.input, timestamp := now },
           { role := Role.assistant,
             content := errorContent (jsOrElse err "Failed to get response"),
             timestamp := now, sources := [], isError := true }]) ∧
    (∀ s2 : String, jsTrim s2 ≠ "" →
      ((sendMessage { (sendMessage st bk now).1 with input := s2 }
        bk now).2).isSome) := by
  obtain ⟨hload, _, _, _⟩ := submit_shape st bk now hl hne
  refine ⟨hload, ?_, ?_, ?_, ?_⟩
  · intro cveId m hx hr
    rw [submit_lookup_transport st bk now hl hne hx hr]
  · intro m hx hq
    rw [submit_query_transport st bk now hl hne hx hq]
  · intro err hx hq
    rw [submit_query_fail st bk now hl hne hx hq]
  · intro s2 hs2
    exact submit_issues _ bk now hload hs2

/-- Witness for C7: an unreachable backend yields the error assistant
message, leaves the dispatcher idle, and a resubmission is accepted. -/
theorem C7_witness :
    (sendMessage st_hello bkDown 0).1.loading = false ∧
    (sendMessage st_hello bkDown 0).1.messages =
      [greetingMessage,
       { role := Role.user, content := "hello", timestamp := 0 },
       { role := Role.assistant, content := errorContent "Failed to fetch",
         timestamp := 0, sources := [], isError := true }] ∧
    ((sendMessage { (sendMessage st_hello bkDown 0).1 with input := "again" }
      bkDown 0).2).isSome := by
  obtain ⟨hload, hlk, hqt, hqf, hres⟩ :=
    C7_failure_handling st_hello bkDown 0 rfl (by decide)
  refine ⟨hload, ?_, hres "again" (by decide)⟩
  have h := hqt "Failed to fetch" (by decide) rfl
  rw [show jsTrim st_hello.input = "hello" from by decide] at h
  simpa using h

/-- C8: the Message Store is append-only: the prior store is a prefix of
the store after any submit; a guarded submit leaves it unchanged; a
non-guarded submit extends it by exactly two messages, the user turn
followed by one assistant turn. -/
theorem C8_append_only (st : ChatState) (bk : Backend) (now : Nat) :
    st.messages <+: (sendMessage st bk now).1.messages ∧
    ((sendMessage st bk now).2 = none →
      (sendMessage st bk now).1.messages = st.messages) ∧
    ((sendMessage st bk now).2 ≠ none →
      (sendMessage st bk now).1.messages.length = st.messages.length + 2 ∧
      ∃ a : Message, a.role = Role.assistant ∧
        (sendMessage st bk now).1.messages =
          st.messages ++
            [{ role := Role.user, content := jsTrim st.input,
               timestamp := now },
             a]) := by
  by_cases hguard : jsTrim st.input = "" ∨ st.loading = true
  · have h : sendMessage st bk now = (st, none) := by
      unfold sendMessage
      rw [if_pos hguard]
    rw [h]
    exact ⟨List.prefix_refl _, fun _ => rfl, fun hc => absurd rfl hc⟩
  · push_neg at hguard
    obtain ⟨hne, hl⟩ := hguard
    have hl2 : st.loading = false := by
      cases hb : st.loading
      · rfl
      · exact absurd hb hl
    obtain ⟨hload, a, ha, heq⟩ := submit_shape st bk now hl2 hne
    refine ⟨?_, ?_, ?_⟩
    · rw [heq]
      exact List.prefix_append _ _
    · intro hnone
      have hsome := submit_issues st bk now hl2 hne
      rw [hnone] at hsome
      exact absurd hsome (by simp)
    · intro _
      exact ⟨by rw [heq]; simp, a, ha, heq⟩

/-- Witness for C8: a concrete completed submit grows the store by two. -/
theorem C8_witness :
    st_hello.messages <+: (sendMessage st_hello bk0 0).1.messages ∧
    (sendMessage st_hello bk0 0).1.messages.length =
      st_hello.messages.length + 2 := by
  obtain ⟨hpre, _, hsome⟩ := C8_append_only st_hello bk0 0
  exact ⟨hpre, (hsome (by decide)).1⟩

/-- C9: the History Projector does not filter on isError: a stored
assistant message flagged isError appears, as its role-content pair, in
the history sent with the next semantic-search request. -/
theorem C9_errors_reach_history (st : ChatState) (bk : Backend) (now : Nat)
    (m : Message) (hm : m ∈ st.messages) (_hrole : m.role = Role.assistant)
    (_he : m.isError = true)
    (hl : st.loading = false) (hne : jsTrim st.input ≠ "")
    (hx : extractCveId (jsTrim st.input) = none) :
    (sendMessage st bk now).2 =
      some (Request.query (jsTrim st.input) (projectHistory st.messages)) ∧
    HistoryEntry.mk m.role m.content ∈ projectHistory st.messages := by
  constructor
  · have h := submit_request_eq st bk now hl hne
    rw [hx] at h
    exact h
  · exact List.mem_map_of_mem _ hm

/-- Witness for C9: the stored error boilerplate reaches the payload. -/
theorem C9_witness :
    (sendMessage st_witherr bk0 0).2 =
      some (Request.query (jsTrim st_witherr.input)
        (projectHistory st_witherr.messages)) ∧
    HistoryEntry.mk errStored.role errStored.content ∈
      projectHistory st_witherr.messages :=
  C9_errors_reach_history st_witherr bk0 0 errStored (by decide) rfl rfl
    rfl (by decide) (by decide)

/-- C10: a direct-lookup request depends only on the extracted uppercased
identifier: two dispatchers with arbitrary, possibly different stores,
backends and clocks, given inputs with the same trimmed text bearing an
identifier, issue the identical lookup request, which carries no history
and no other part of the text. -/
theorem C10_lookup_noninterference (st1 st2 : ChatState)
    (bk1 bk2 : Backend) (now1 now2 : Nat) (cveId : String)
    (hl1 : st1.loading = false) (hl2 : st2.loading = false)
    (hin : jsTrim st1.input = jsTrim st2.input)
    (hne : jsTrim st1.input ≠ "")
    (hx : extractCveId (jsTrim st1.input) = some cveId) :
    (sendMessage st1 bk1 now1).2 = some (Request.lookup cveId) ∧
    (sendMessage st2 bk2 now2).2 = some (Request.lookup cveId) := by
  constructor
  · have h := submit_request_eq st1 bk1 now1 hl1 hne
    rw [hx] at h
    exact h
  · have hx2 : extractCveId (jsTrim st2.input) = some cveId := by
      rw [← hin]
      exact hx
    have h := submit_request_eq st2 bk2 now2 hl2 (hin ▸ hne)
    rw [hx2] at h
    exact h

/-- Witness for C10: different stores and backends, same input, same
issued request. -/
theorem C10_witness :
    (sendMessage st_cve bkHit 0).2 = some (Request.lookup "CVE-2023-1234") ∧
    (sendMessage st_cveB bkDown 5).2 =
      some (Request.lookup "CVE-2023-1234") :=
  C10_lookup_noninterference st_cve st_cveB bkHit bkDown 0 5 "CVE-2023-1234"
    rfl rfl rfl (by decide) (by decide)

end CyberRAG
